import Mathlib

/-
  Verification of the Expense-Tracker web application (src/app.py).

  Embedding conventions:
  * Calendar dates are represented by their Python ordinal (days since
    0001-01-01 = 1, `date.toordinal`).  The application stores dates as
    ISO-8601 `YYYY-MM-DD` strings in a TEXT column and filters with
    `date BETWEEN ? AND ?`; SQLite compares TEXT with binary collation,
    and on well-formed ISO-8601 strings that order coincides with the
    ordinal order, so the `BETWEEN` filter is embedded as an ordinal
    interval test.
  * SQLite REAL amounts are embedded as rationals; Python `round(x, 2)`
    is embedded as round-half-to-even at two decimal places.
  * `werkzeug.security.generate_password_hash` / `check_password_hash`
    are abstracted as a `HashScheme`: a salted generator together with a
    checker and the defining property that a generated hash verifies
    against the password it was generated from.
  * Each route handler is a pure function from the request data and the
    database state to a response together with the successor state; an
    uncaught Python exception is an `Except.error`.
-/

namespace ExpenseTracker

/-! ## Python date arithmetic (datetime module, proleptic Gregorian) -/

def isLeap (y : Nat) : Bool :=
  (y % 4 == 0 && y % 100 != 0) || y % 400 == 0

def daysInMonth (y m : Nat) : Nat :=
  if m = 2 then (if isLeap y then 29 else 28)
  else if m = 4 ∨ m = 6 ∨ m = 9 ∨ m = 11 then 30
  else 31

def daysBeforeMonth (y m : Nat) : Nat :=
  (List.range (m - 1)).foldl (fun acc i => acc + daysInMonth y (i + 1)) 0

def daysBeforeYear (y : Nat) : Nat :=
  (y - 1) * 365 + (y - 1) / 4 + (y - 1) / 400 - (y - 1) / 100

/-- `date(y, m, d).toordinal()`: days since 0001-01-01 = 1. -/
def toOrdinal (y m d : Nat) : Nat :=
  daysBeforeYear y + daysBeforeMonth y m + d

/-- `date.weekday()` from the ordinal: Monday = 0, ..., Sunday = 6. -/
def weekday (o : Nat) : Nat :=
  (o + 6) % 7

/-- CPython `_isoweek1monday`: ordinal of the Monday of ISO week 1 of `y`
(the week containing January 4th). -/
def isoweek1monday (y : Nat) : Nat :=
  let firstday := toOrdinal y 1 1
  let firstweekday := (firstday + 6) % 7
  let week1monday := firstday - firstweekday
  if firstweekday > 3 then week1monday + 7 else week1monday

/-- `datetime.fromisocalendar(year, week, day)` returning the ordinal of the
resulting date, `none` when CPython raises `ValueError` (year outside
[1, 9999], week outside the valid range for that ISO year, day outside
[1, 7]). -/
def fromisocalendar (year week day : Int) : Option Nat :=
  if ¬ (1 ≤ year ∧ year ≤ 9999) then none
  else if ¬ ((0 < week ∧ week < 53) ∨
      (week = 53 ∧ (toOrdinal year.toNat 1 1 % 7 = 4 ∨
        (toOrdinal year.toNat 1 1 % 7 = 3 ∧ isLeap year.toNat)))) then none
  else if ¬ (0 < day ∧ day < 8) then none
  else some (isoweek1monday year.toNat + ((week.toNat - 1) * 7 + (day.toNat - 1)))

/-- `date.isocalendar()` restricted to (ISO year, ISO week number), computed
from the calendar year `y` and the ordinal `o` of the date, following
CPython `date.isocalendar`. -/
def isocalendarYW (y : Nat) (o : Nat) : Nat × Nat :=
  let w1m := isoweek1monday y
  let week : Int := Int.fdiv ((o : Int) - (w1m : Int)) 7
  if week < 0 then
    let diff := (o : Int) - (isoweek1monday (y - 1) : Int)
    (y - 1, (Int.fdiv diff 7).toNat + 1)
  else if 52 ≤ week ∧ isoweek1monday (y + 1) ≤ o then
    (y + 1, 1)
  else
    (y, week.toNat + 1)

/-! ## Week-token parsing (`dashboard` week selection) -/

/-- Python `str.split` specialised to the separator `"-W"` used by the
dashboard, over the character list of the string (structurally recursive so
that concrete instances evaluate in the kernel): non-overlapping
left-to-right matches of `-W` delimit the parts. -/
def splitDashW : List Char → List (List Char)
  | [] => [[]]
  | [a] => [[a]]
  | a :: b :: rest =>
    if a = '-' ∧ b = 'W' then [] :: splitDashW rest
    else
      match splitDashW (b :: rest) with
      | [] => [[a]]
      | h :: t => (a :: h) :: t

/-- The ASCII whitespace CPython `int` strips around a decimal literal.
(CPython also strips the other Unicode whitespace code points, which cannot
occur in this application's percent-decoded ASCII query strings.) -/
def isPySpace (c : Char) : Bool :=
  c = ' ' ∨ c = '\t' ∨ c = '\n' ∨ c = '\r' ∨ c = '\x0b' ∨ c = '\x0c'

def stripSpaces (l : List Char) : List Char :=
  ((l.dropWhile isPySpace).reverse.dropWhile isPySpace).reverse

/-- The tail of a CPython decimal digit run after its first digit:
`(["_"] digit)*` — a single underscore is allowed only between digits. -/
def digitsUnderscore : List Char → Nat → Option Nat
  | [], acc => some acc
  | c :: r, acc =>
    if '0' ≤ c ∧ c ≤ '9' then digitsUnderscore r (acc * 10 + (c.toNat - 48))
    else if c = '_' then
      match r with
      | [] => none
      | d :: r2 =>
        if '0' ≤ d ∧ d ≤ '9' then digitsUnderscore r2 (acc * 10 + (d.toNat - 48))
        else none
    else none

/-- A CPython decimal digit run `digit (["_"] digit)*`: at least one digit,
underscores only between digits.  (Digits are the ASCII digits; CPython
additionally accepts non-ASCII Unicode decimal digits, which cannot occur
in this application's ASCII query strings.) -/
def pyIntDigits : List Char → Option Nat
  | [] => none
  | c :: r =>
    if '0' ≤ c ∧ c ≤ '9' then digitsUnderscore r (c.toNat - 48) else none

/-- Python `int` on a decimal string given as its characters: optional
surrounding whitespace, optional sign, then a digit run with single
underscores allowed between digits. -/
def pyIntChars (l : List Char) : Option Int :=
  match stripSpaces l with
  | '-' :: r => (pyIntDigits r).map (fun n => -(n : Int))
  | '+' :: r => (pyIntDigits r).map (fun n => (n : Int))
  | l2 => (pyIntDigits l2).map (fun n => (n : Int))

/-- `year, week = map(int, selected_week.split("-W"))`: `none` models the
`ValueError` raised when the split does not yield exactly two integer
literals. -/
def parseWeekToken (s : String) : Option (Int × Int) :=
  match splitDashW s.data with
  | [a, b] =>
    match pyIntChars a, pyIntChars b with
    | some y, some w => some (y, w)
    | _, _ => none
  | _ => none

/-- Zero-padded two-digit rendering used by `strftime("%V")`. -/
def pad2 (n : Nat) : String :=
  if n < 10 then "0" ++ toString n else toString n

/-- `today.strftime("%Y-W%V")`: the CALENDAR year of the date together with
its ISO week number. -/
def strftimeYWV (y : Nat) (o : Nat) : String :=
  toString y ++ "-W" ++ pad2 (isocalendarYW y o).2

/-- Modelled from the spec: the true ISO week token `YYYY-Www` of a date,
built from its ISO year and ISO week number (spec: "the echoed week token
equals the ISO year and ISO week number").  Present only to compare the
code behaviour against the spec wording. -/
def specIsoWeekToken (y m d : Nat) : String :=
  let yw := isocalendarYW y (toOrdinal y m d)
  toString yw.1 ++ "-W" ++ pad2 yw.2

/-! ## Data model (tables `users` and `expenses`) -/

structure User where
  id : Nat
  email : String
  password : String
deriving DecidableEq, Repr

structure Expense where
  id : Nat
  user_id : Nat
  amount : ℚ
  category : String
  date : Nat
deriving DecidableEq, Repr

structure DB where
  users : List User := []
  expenses : List Expense := []
  nextUserId : Nat := 1
  nextExpenseId : Nat := 1
deriving DecidableEq, Repr

inductive PyExc where
  | integrityError
  | valueError
deriving DecidableEq, Repr

inductive Response where
  | redirect (endpoint : String)
  | template (name : String) (error : Option String)
  | dashboardPage (selected_week : String) (total_spent : ℚ)
      (top_category : Option String) (categories : List String)
      (amounts : List ℚ)
deriving DecidableEq, Repr

/-- Abstraction of the salted password-hashing primitive:
`gen` is `generate_password_hash` (salt made explicit), `check` is
`check_password_hash`, and `check_gen` is its defining property. -/
structure HashScheme where
  gen : Nat → String → String
  check : String → String → Bool
  check_gen : ∀ s p, check (gen s p) p = true

/-! ## Auth routes -/

/-- `INSERT INTO users (email, password) VALUES (?, ?)`: the UNIQUE
constraint on `email` raises `IntegrityError` on a duplicate. -/
def insertUser (db : DB) (email hash : String) : Except PyExc DB :=
  if db.users.any (fun u => u.email == email) then .error .integrityError
  else .ok { db with
    users := db.users ++ [⟨db.nextUserId, email, hash⟩],
    nextUserId := db.nextUserId + 1 }

/-- POST `/signup`: hash the password, try the insert, catch
`IntegrityError` by redisplaying the form with an inline error, otherwise
redirect to login. -/
def signupPost (scheme : HashScheme) (db : DB) (salt : Nat)
    (email pw : String) : Response × DB :=
  let hash := scheme.gen salt pw
  match insertUser db email hash with
  | .error _ => (.template "signup.html" (some "Email already exists."), db)
  | .ok db1 => (.redirect "login", db1)

/-- POST `/login`: `SELECT * FROM users WHERE email = ?`, `fetchone`, then
`check_password_hash`; on success set `session["user_id"]` and redirect to
the dashboard, otherwise redisplay the form with the generic message. -/
def loginPost (scheme : HashScheme) (db : DB) (sess : Option Nat)
    (email pw : String) : Response × Option Nat :=
  match db.users.find? (fun u => u.email == email) with
  | some u =>
    if scheme.check u.password pw then (.redirect "dashboard", some u.id)
    else (.template "login.html" (some "Invalid credentials."), sess)
  | none => (.template "login.html" (some "Invalid credentials."), sess)

/-! ## Dashboard route -/

inductive Method where
  | get
  | post
deriving DecidableEq, Repr

/-- The POST form of `/dashboard`; `amount` is the value of
`float(request.form["amount"])`, `date` the stored date (as an ordinal). -/
structure PostForm where
  amount : ℚ
  category : String
  date : Nat
deriving DecidableEq, Repr

/-- `INSERT INTO expenses (user_id, amount, category, date) VALUES (?,?,?,?)`
followed by `conn.commit()`. -/
def insertExpense (db : DB) (uid : Nat) (f : PostForm) : DB :=
  { db with
    expenses := db.expenses ++ [⟨db.nextExpenseId, uid, f.amount, f.category, f.date⟩],
    nextExpenseId := db.nextExpenseId + 1 }

/-- The default branch of the week selection:
`today - timedelta(days=today.weekday())` with the echoed token
`today.strftime("%Y-W%V")`. -/
def defaultWeek (today : Nat × Nat × Nat) : Nat × String :=
  let o := toOrdinal today.1 today.2.1 today.2.2
  (o - weekday o, strftimeYWV today.1 o)

/-- Week selection guarded by `if selected_week:` — Python truthiness, so
both a missing `week` parameter and the empty string `?week=` take the
default branch.  A truthy parameter is parsed and the Monday of that ISO
week taken (any parse failure is an uncaught `ValueError`, hence `none`). -/
def weekSelection (weekParam : Option String) (today : Nat × Nat × Nat) :
    Option (Nat × String) :=
  match weekParam with
  | some s =>
    if s = "" then some (defaultWeek today)
    else
      match parseWeekToken s with
      | none => none
      | some yw => (fromisocalendar yw.1 yw.2 1).map (fun o => (o, s))
  | none => some (defaultWeek today)

/-- The rows of
`SELECT category, SUM(amount) FROM expenses WHERE user_id = ? AND date
BETWEEN ? AND ? GROUP BY category`, split into the row filter ... -/
def matchingExpenses (db : DB) (uid s e : Nat) : List Expense :=
  db.expenses.filter
    (fun x => x.user_id == uid && (decide (s ≤ x.date) && decide (x.date ≤ e)))

/-- ... and the grouping: one `(category, SUM(amount))` pair per distinct
category of the filtered rows (SQLite leaves the group order unspecified;
no claim depends on it). -/
def sqlGroupBy (es : List Expense) : List (String × ℚ) :=
  ((es.map Expense.category).dedup).map
    (fun c => (c, ((es.filter (fun x => x.category == c)).map Expense.amount).sum))

def aggregate (db : DB) (uid s e : Nat) : List (String × ℚ) :=
  sqlGroupBy (matchingExpenses db uid s e)

/-- Python `round` to the nearest integer, ties to even. -/
def roundHalfEven (q : ℚ) : Int :=
  if q - ⌊q⌋ < 1 / 2 then ⌊q⌋
  else if 1 / 2 < q - ⌊q⌋ then ⌊q⌋ + 1
  else if ⌊q⌋ % 2 = 0 then ⌊q⌋ else ⌊q⌋ + 1

/-- `round(x, 2)`. -/
def round2 (q : ℚ) : ℚ :=
  (roundHalfEven (q * 100) : ℚ) / 100

/-- `max(amounts)` for a Python list (the guard value for `[]`, on which
CPython raises, is never reached behind the non-empty test). -/
def pyMax : List ℚ → ℚ
  | [] => 0
  | a :: t => t.foldl max a

/-- The data-preparation block of the dashboard:
`categories`, `amounts`, `total_spent = round(sum(amounts), 2)`,
`top_category = categories[amounts.index(max(amounts))] if amounts else None`. -/
def dashboardData (rows : List (String × ℚ)) :
    List String × List ℚ × ℚ × Option String :=
  let categories := rows.map Prod.fst
  let amounts := rows.map Prod.snd
  let total_spent := round2 amounts.sum
  let top_category :=
    if amounts.isEmpty then none
    else categories[amounts.indexOf (pyMax amounts)]?
  (categories, amounts, total_spent, top_category)

/-- GET/POST `/dashboard`.  Guard (`if not current_user()`, Python falsiness:
missing key or user id 0), then on POST the expense insert and commit, then
week selection (which may raise), then the aggregation and rendering. -/
def dashboard (db : DB) (sess : Option Nat) (method : Method)
    (form : Option PostForm) (weekParam : Option String)
    (today : Nat × Nat × Nat) : Except PyExc Response × DB :=
  match sess with
  | none => (.ok (.redirect "login"), db)
  | some uid =>
    if uid = 0 then (.ok (.redirect "login"), db)
    else
      let db1 :=
        match method, form with
        | .post, some f => insertExpense db uid f
        | _, _ => db
      match weekSelection weekParam today with
      | none => (.error .valueError, db1)
      | some sw =>
        let rows := aggregate db1 uid sw.1 (sw.1 + 6)
        let data := dashboardData rows
        (.ok (.dashboardPage sw.2 data.2.2.1 data.2.2.2 data.1 data.2.1), db1)

/-! ## Helper lemmas and concrete fixtures -/

/-- A concrete hashing scheme used to instantiate witnesses (the claims hold
for every scheme satisfying `check_gen`). -/
def plainScheme : HashScheme where
  gen := fun _ p => "hash:" ++ p
  check := fun h p => h == "hash:" ++ p
  check_gen := by intro s p; simp

def demoDB : DB :=
  { users := [⟨1, "a@b.c", "hash1"⟩],
    expenses := [⟨1, 1, 85 / 2, "Food", toOrdinal 2024 1 17⟩],
    nextUserId := 2, nextExpenseId := 2 }

def demoDB2 : DB :=
  { users := [⟨1, "a@b.c", "hash1"⟩, ⟨2, "c@d.e", "hash2"⟩],
    expenses := [⟨1, 1, 85 / 2, "Food", toOrdinal 2024 1 17⟩,
                 ⟨2, 2, 7, "Rent", toOrdinal 2024 1 16⟩],
    nextUserId := 3, nextExpenseId := 3 }

theorem foldl_max_mem (t : List ℚ) (a : ℚ) :
    t.foldl max a = a ∨ t.foldl max a ∈ t := by
  induction t generalizing a with
  | nil => exact Or.inl rfl
  | cons b t ih =>
    simp only [List.foldl_cons]
    rcases ih (max a b) with h | h
    · rw [h]
      rcases max_choice a b with hm | hm
      · exact Or.inl hm
      · exact Or.inr (by rw [hm]; exact List.mem_cons_self b t)
    · exact Or.inr (List.mem_cons_of_mem b h)

theorem le_foldl_max_init (t : List ℚ) (a : ℚ) : a ≤ t.foldl max a := by
  induction t generalizing a with
  | nil => exact le_refl a
  | cons b t ih =>
    simp only [List.foldl_cons]
    exact le_trans (le_max_left a b) (ih (max a b))

theorem le_foldl_max_of_mem (t : List ℚ) (a x : ℚ) (hx : x ∈ t) :
    x ≤ t.foldl max a := by
  induction t generalizing a with
  | nil => cases hx
  | cons b t ih =>
    simp only [List.foldl_cons]
    rcases List.mem_cons.mp hx with h | h
    · rw [h]
      exact le_trans (le_max_right a b) (le_foldl_max_init t (max a b))
    · exact ih (max a b) h

theorem pyMax_mem (l : List ℚ) (hl : l ≠ []) : pyMax l ∈ l := by
  match l with
  | [] => exact absurd rfl hl
  | a :: t =>
    show t.foldl max a ∈ a :: t
    rcases foldl_max_mem t a with h | h
    · rw [h]; exact List.mem_cons_self a t
    · exact List.mem_cons_of_mem a h

theorem le_pyMax (l : List ℚ) (x : ℚ) (hx : x ∈ l) : x ≤ pyMax l := by
  match l with
  | [] => cases hx
  | a :: t =>
    show x ≤ t.foldl max a
    rcases List.mem_cons.mp hx with h | h
    · rw [h]; exact le_foldl_max_init t a
    · exact le_foldl_max_of_mem t a x h

theorem isoweek1monday_eq (y : Nat) :
    isoweek1monday y =
      if (toOrdinal y 1 1 + 6) % 7 > 3
      then toOrdinal y 1 1 - (toOrdinal y 1 1 + 6) % 7 + 7
      else toOrdinal y 1 1 - (toOrdinal y 1 1 + 6) % 7 := rfl

theorem one_le_toOrdinal (y m d : Nat) (hd : 1 ≤ d) : 1 ≤ toOrdinal y m d := by
  unfold toOrdinal; omega

theorem weekday_isoweek1monday (y : Nat) : weekday (isoweek1monday y) = 0 := by
  have h1 : 1 ≤ toOrdinal y 1 1 := one_le_toOrdinal y 1 1 le_rfl
  rw [isoweek1monday_eq]
  unfold weekday
  split <;> omega

theorem weekday_add_mul_seven (a k : Nat) : weekday (a + k * 7) = weekday a := by
  unfold weekday; omega

theorem roundHalfEven_zero : roundHalfEven 0 = 0 := by
  unfold roundHalfEven
  norm_num

theorem round2_zero : round2 0 = 0 := by
  unfold round2
  rw [show (0 : ℚ) * 100 = 0 by norm_num, roundHalfEven_zero]
  norm_num

theorem round2_eightyfive_halves : round2 (85 / 2) = 85 / 2 := by
  unfold round2
  rw [show (85 / 2 : ℚ) * 100 = ((4250 : ℤ) : ℚ) by norm_num]
  have hfl : roundHalfEven ((4250 : ℤ) : ℚ) = 4250 := by
    unfold roundHalfEven
    norm_num
  rw [hfl]
  norm_num

theorem demo_matching_w03 :
    matchingExpenses demoDB 1 (toOrdinal 2024 1 15) (toOrdinal 2024 1 15 + 6)
      = demoDB.expenses := by
  unfold matchingExpenses
  rw [show demoDB.expenses = [⟨1, 1, 85 / 2, "Food", toOrdinal 2024 1 17⟩] from rfl]
  rw [List.filter_cons_of_pos (by decide), List.filter_nil]

theorem demo_matching_w04 :
    matchingExpenses demoDB 1 (toOrdinal 2024 1 22) (toOrdinal 2024 1 22 + 6)
      = [] := by
  unfold matchingExpenses
  rw [show demoDB.expenses = [⟨1, 1, 85 / 2, "Food", toOrdinal 2024 1 17⟩] from rfl]
  rw [List.filter_cons_of_neg (by decide), List.filter_nil]

theorem demo_aggregate_w03 :
    aggregate demoDB 1 (toOrdinal 2024 1 15) (toOrdinal 2024 1 15 + 6)
      = [("Food", 85 / 2)] := by
  unfold aggregate
  rw [demo_matching_w03]
  rw [show demoDB.expenses = [⟨1, 1, 85 / 2, "Food", toOrdinal 2024 1 17⟩] from rfl]
  unfold sqlGroupBy
  rw [show List.map Expense.category [⟨1, 1, 85 / 2, "Food", toOrdinal 2024 1 17⟩]
      = ["Food"] from rfl]
  rw [List.dedup_cons_of_not_mem (List.not_mem_nil _), List.dedup_nil]
  rw [List.map_cons, List.map_nil]
  rw [List.filter_cons_of_pos (by decide), List.filter_nil]
  rw [List.map_cons, List.map_nil, List.sum_singleton]

theorem demo_aggregate_w04 :
    aggregate demoDB 1 (toOrdinal 2024 1 22) (toOrdinal 2024 1 22 + 6) = [] := by
  unfold aggregate
  rw [demo_matching_w04]
  rfl

/-- The full data tuple behind every dashboard rendering: the total is the
2-decimal rounding of the sum of the per-category totals; no rows give
total 0 and an absent top category; otherwise the top category is the label
of a row of maximal total. -/
theorem dashboardData_spec (rows : List (String × ℚ)) :
    (dashboardData rows).2.2.1 = round2 ((rows.map Prod.snd).sum) ∧
    (rows = [] →
      (dashboardData rows).2.2.1 = 0 ∧ (dashboardData rows).2.2.2 = none) ∧
    (rows ≠ [] →
      ∃ p ∈ rows, (dashboardData rows).2.2.2 = some p.1 ∧
        ∀ q ∈ rows, q.2 ≤ p.2) := by
  refine ⟨rfl, ?_, ?_⟩
  · rintro rfl
    refine ⟨?_, rfl⟩
    show round2 ((List.map Prod.snd ([] : List (String × ℚ))).sum) = 0
    rw [show ((List.map Prod.snd ([] : List (String × ℚ))).sum : ℚ) = 0 from rfl]
    exact round2_zero
  · intro hne
    have hane : rows.map Prod.snd ≠ [] := fun h => hne (List.map_eq_nil_iff.mp h)
    have hm : pyMax (rows.map Prod.snd) ∈ rows.map Prod.snd :=
      pyMax_mem _ hane
    have hidx : (rows.map Prod.snd).indexOf (pyMax (rows.map Prod.snd))
        < (rows.map Prod.snd).length := List.indexOf_lt_length.mpr hm
    have hidxr : (rows.map Prod.snd).indexOf (pyMax (rows.map Prod.snd))
        < rows.length := by simpa using hidx
    have hidxc : (rows.map Prod.snd).indexOf (pyMax (rows.map Prod.snd))
        < (rows.map Prod.fst).length := by simpa using hidx
    refine ⟨rows[(rows.map Prod.snd).indexOf (pyMax (rows.map Prod.snd))],
      List.getElem_mem hidxr, ?_, ?_⟩
    · have hie : (rows.map Prod.snd).isEmpty = false :=
        List.isEmpty_eq_false.mpr hane
      show (if (rows.map Prod.snd).isEmpty then none
        else (rows.map Prod.fst)[(rows.map Prod.snd).indexOf (pyMax (rows.map Prod.snd))]?)
        = some _
      rw [hie]
      simp only [Bool.false_eq_true, if_false]
      rw [List.getElem?_eq_getElem hidxc, List.getElem_map]
    · intro q hq
      have hq2 : q.2 ≤ pyMax (rows.map Prod.snd) :=
        le_pyMax _ _ (List.mem_map_of_mem Prod.snd hq)
    -- the selected row's total is the maximum itself
      have : (rows.map Prod.snd)[(rows.map Prod.snd).indexOf (pyMax (rows.map Prod.snd))]
          = pyMax (rows.map Prod.snd) := List.getElem_indexOf hidx
      rw [List.getElem_map] at this
      rw [this]
      exact hq2

/-! ## Claims -/

/-- C1: with a logged-in user and a well-formed week token parsed to ISO
week (y, w), the selected window starts on the Monday of that ISO week
(`fromisocalendar y w 1`, a Monday) and runs through Monday + 6 days; an
expense enters the aggregation rows exactly when it belongs to the user and
its date lies inside that inclusive window. -/
theorem dashboard_week_membership (db : DB) (uid : Nat) (y w : Int)
    (startD : Nat) (hcal : fromisocalendar y w 1 = some startD) (x : Expense) :
    weekday startD = 0 ∧
    (x ∈ matchingExpenses db uid startD (startD + 6) ↔
      x ∈ db.expenses ∧ x.user_id = uid ∧ startD ≤ x.date ∧ x.date ≤ startD + 6) := by
  constructor
  · unfold fromisocalendar at hcal
    split at hcal
    · exact absurd hcal (by simp)
    split at hcal
    · exact absurd hcal (by simp)
    split at hcal
    · exact absurd hcal (by simp)
    have hs : isoweek1monday y.toNat + ((w.toNat - 1) * 7 + ((1 : Int).toNat - 1))
        = startD := Option.some.inj hcal
    have h0 : ((1 : Int).toNat - 1) = 0 := rfl
    rw [h0, Nat.add_zero] at hs
    rw [← hs, weekday_add_mul_seven, weekday_isoweek1monday]
  · simp [matchingExpenses, List.mem_filter, and_assoc]

theorem dashboard_week_membership_witness :
    parseWeekToken "2024-W03" = some (2024, 3) ∧
    fromisocalendar 2024 3 1 = some (toOrdinal 2024 1 15) ∧
    weekday (toOrdinal 2024 1 15) = 0 ∧
    (⟨1, 1, 85 / 2, "Food", toOrdinal 2024 1 17⟩ : Expense) ∈
      matchingExpenses demoDB 1 (toOrdinal 2024 1 15) (toOrdinal 2024 1 15 + 6) ∧
    aggregate demoDB 1 (toOrdinal 2024 1 15) (toOrdinal 2024 1 15 + 6)
      = [("Food", 85 / 2)] ∧
    parseWeekToken "2024-W04" = some (2024, 4) ∧
    fromisocalendar 2024 4 1 = some (toOrdinal 2024 1 22) ∧
    aggregate demoDB 1 (toOrdinal 2024 1 22) (toOrdinal 2024 1 22 + 6) = [] :=
  ⟨by decide, by decide,
   (dashboard_week_membership demoDB 1 2024 3 (toOrdinal 2024 1 15) (by decide)
     ⟨1, 1, 85 / 2, "Food", toOrdinal 2024 1 17⟩).1,
   ((dashboard_week_membership demoDB 1 2024 3 (toOrdinal 2024 1 15) (by decide)
     ⟨1, 1, 85 / 2, "Food", toOrdinal 2024 1 17⟩).2).mpr
     ⟨List.mem_cons_self _ _, rfl, by decide, by decide⟩,
   demo_aggregate_w03, by decide, by decide, demo_aggregate_w04⟩

/-- C2: in every dashboard rendering, `total_spent` is the 2-decimal
rounding of the sum of the per-category totals of the selected window; with
zero matching expenses it is 0 and `top_category` is absent; otherwise
`top_category` is a category whose total is maximal among the rows. -/
theorem dashboard_totals_and_top (db : DB) (uid s e : Nat) :
    (dashboardData (aggregate db uid s e)).2.2.1
      = round2 (((aggregate db uid s e).map Prod.snd).sum) ∧
    (aggregate db uid s e = [] →
      (dashboardData (aggregate db uid s e)).2.2.1 = 0 ∧
      (dashboardData (aggregate db uid s e)).2.2.2 = none) ∧
    (aggregate db uid s e ≠ [] →
      ∃ p ∈ aggregate db uid s e,
        (dashboardData (aggregate db uid s e)).2.2.2 = some p.1 ∧
        ∀ q ∈ aggregate db uid s e, q.2 ≤ p.2) :=
  dashboardData_spec (aggregate db uid s e)

theorem dashboard_totals_and_top_witness :
    ((dashboardData (aggregate {} 1 0 6)).2.2.1 = 0 ∧
      (dashboardData (aggregate {} 1 0 6)).2.2.2 = none) ∧
    (dashboardData (aggregate demoDB 1 (toOrdinal 2024 1 15)
      (toOrdinal 2024 1 15 + 6))).2.2.2 = some "Food" ∧
    (dashboardData (aggregate demoDB 1 (toOrdinal 2024 1 15)
      (toOrdinal 2024 1 15 + 6))).2.2.1 = 85 / 2 :=
  ⟨(dashboard_totals_and_top {} 1 0 6).2.1 rfl,
   by
    rw [demo_aggregate_w03]
    show (if ([(85 / 2 : ℚ)]).isEmpty then none
      else (["Food"])[([(85 / 2 : ℚ)]).indexOf (pyMax [(85 / 2 : ℚ)])]?) = some "Food"
    rw [show pyMax [(85 / 2 : ℚ)] = 85 / 2 from rfl, List.indexOf_cons_self]
    rfl,
   by
    rw [demo_aggregate_w03]
    show round2 ((List.map Prod.snd [("Food", (85 / 2 : ℚ))]).sum) = 85 / 2
    rw [show List.map Prod.snd [("Food", (85 / 2 : ℚ))] = [(85 / 2 : ℚ)] from rfl,
      List.sum_singleton]
    exact round2_eightyfive_halves⟩

/-- C3: a signup whose email already exists hits the UNIQUE constraint
(`IntegrityError`, the DuplicateEmail condition), which is caught and
answered with the signup form plus an inline error message — not a raw
error page — and the database, in particular the existing row, is left
unchanged. -/
theorem signup_duplicate_email (scheme : HashScheme) (db : DB) (salt : Nat)
    (email pw : String) (u : User) (hu : u ∈ db.users) (he : u.email = email) :
    insertUser db email (scheme.gen salt pw) = .error .integrityError ∧
    signupPost scheme db salt email pw
      = (.template "signup.html" (some "Email already exists."), db) := by
  have hany : db.users.any (fun v => v.email == email) = true :=
    List.any_eq_true.mpr ⟨u, hu, by simp [he]⟩
  constructor
  · simp [insertUser, hany]
  · simp [signupPost, insertUser, hany]

theorem signup_duplicate_email_witness :
    signupPost plainScheme demoDB 7 "a@b.c" "pw2"
      = (.template "signup.html" (some "Email already exists."), demoDB) :=
  (signup_duplicate_email plainScheme demoDB 7 "a@b.c" "pw2"
    ⟨1, "a@b.c", "hash1"⟩ (by decide) rfl).2

/-- C4: for a not-yet-registered email, signup stores the salted hash and
redirects to login, and a subsequent login with the same credentials
verifies the stored hash, sets the session to the new user id, and
redirects to the dashboard. -/
theorem signup_then_login (scheme : HashScheme) (db : DB) (salt : Nat)
    (email pw : String) (sess : Option Nat)
    (hfresh : ∀ u ∈ db.users, u.email ≠ email) :
    (signupPost scheme db salt email pw).1 = .redirect "login" ∧
    loginPost scheme (signupPost scheme db salt email pw).2 sess email pw
      = (.redirect "dashboard", some db.nextUserId) := by
  have hany : db.users.any (fun v => v.email == email) = false :=
    List.any_eq_false.mpr (by intro u hu; simp [hfresh u hu])
  have hfind : db.users.find? (fun v => v.email == email) = none :=
    List.find?_eq_none.mpr (by intro u hu; simp [hfresh u hu])
  constructor
  · simp [signupPost, insertUser, hany]
  · simp [signupPost, insertUser, hany, loginPost, List.find?_append, hfind,
      List.find?, scheme.check_gen]

theorem signup_then_login_witness :
    (signupPost plainScheme {} 3 "new@x.y" "pw").1 = .redirect "login" ∧
    loginPost plainScheme (signupPost plainScheme {} 3 "new@x.y" "pw").2
      none "new@x.y" "pw" = (.redirect "dashboard", some 1) :=
  signup_then_login plainScheme {} 3 "new@x.y" "pw" none (by simp)

/-- C5: unknown-email login failure and wrong-password login failure are
observably identical: both return the login form with the same generic
message, neither sets the session, so the response does not reveal which
check failed. -/
theorem login_failures_indistinguishable (scheme : HashScheme)
    (db₁ db₂ : DB) (sess₁ sess₂ : Option Nat) (e₁ p₁ e₂ p₂ : String)
    (h₁ : db₁.users.find? (fun u => u.email == e₁) = none)
    (u : User) (h₂ : db₂.users.find? (fun u => u.email == e₂) = some u)
    (hbad : scheme.check u.password p₂ = false) :
    loginPost scheme db₁ sess₁ e₁ p₁
      = (.template "login.html" (some "Invalid credentials."), sess₁) ∧
    loginPost scheme db₂ sess₂ e₂ p₂
      = (.template "login.html" (some "Invalid credentials."), sess₂) ∧
    (loginPost scheme db₁ sess₁ e₁ p₁).1 = (loginPost scheme db₂ sess₂ e₂ p₂).1 := by
  have r₁ : loginPost scheme db₁ sess₁ e₁ p₁
      = (.template "login.html" (some "Invalid credentials."), sess₁) := by
    simp [loginPost, h₁]
  have r₂ : loginPost scheme db₂ sess₂ e₂ p₂
      = (.template "login.html" (some "Invalid credentials."), sess₂) := by
    simp [loginPost, h₂, hbad]
  exact ⟨r₁, r₂, by rw [r₁, r₂]⟩

theorem login_failures_indistinguishable_witness :
    loginPost plainScheme demoDB none "nobody@x.y" "pw"
      = (.template "login.html" (some "Invalid credentials."), none) ∧
    loginPost plainScheme demoDB none "a@b.c" "wrongpw"
      = (.template "login.html" (some "Invalid credentials."), none) :=
  ⟨(login_failures_indistinguishable plainScheme demoDB demoDB none none
      "nobody@x.y" "pw" "a@b.c" "wrongpw" (by decide)
      ⟨1, "a@b.c", "hash1"⟩ (by decide) (by decide)).1,
   (login_failures_indistinguishable plainScheme demoDB demoDB none none
      "nobody@x.y" "pw" "a@b.c" "wrongpw" (by decide)
      ⟨1, "a@b.c", "hash1"⟩ (by decide) (by decide)).2.1⟩

/-- C6: a `/dashboard` request whose session carries no valid user id (no
`user_id`; the Python-falsy id 0 behaves the same) is answered by a
redirect to the login page, and the database — both tables — is left
unchanged; in particular a POST with form fields performs no insert. -/
theorem dashboard_unauthenticated_redirects (db : DB) (sess : Option Nat)
    (method : Method) (form : Option PostForm) (weekParam : Option String)
    (today : Nat × Nat × Nat) (h : sess = none ∨ sess = some 0) :
    dashboard db sess method form weekParam today
      = (.ok (.redirect "login"), db) := by
  rcases h with h | h <;> subst h <;> rfl

theorem dashboard_unauthenticated_redirects_witness :
    dashboard demoDB none .post (some ⟨5, "Food", toOrdinal 2024 1 17⟩)
      (some "2024-W03") (2024, 1, 17) = (.ok (.redirect "login"), demoDB) :=
  dashboard_unauthenticated_redirects demoDB none .post
    (some ⟨5, "Food", toOrdinal 2024 1 17⟩) (some "2024-W03") (2024, 1, 17)
    (Or.inl rfl)

/-- C7: the code gap the spec corrects — with a valid session, a malformed
week token ("notaweek": no two integer parts; "2024-W99": week out of
range) makes the week parse raise an uncaught `ValueError` instead of
producing a clean validation response. -/
theorem dashboard_malformed_week_crashes :
    (dashboard demoDB (some 1) .get none (some "notaweek") (2024, 1, 17)).1
      = .error .valueError ∧
    (dashboard demoDB (some 1) .get none (some "2024-W99") (2024, 1, 17)).1
      = .error .valueError := by
  constructor <;> rfl

/-- C8 (amended): without a `week` parameter the aggregation window is the
Monday-to-Sunday ISO week containing the current date; the echoed token is
built from the CALENDAR year together with the ISO week number
(`strftime "%Y-W%V"`), which agrees with the true ISO token exactly when
the ISO year of the date equals its calendar year — not at year
boundaries. -/
theorem default_week_window_and_token (y m d : Nat) (hd : 1 ≤ d)
    (startD : Nat) (tok : String)
    (hsel : weekSelection none (y, m, d) = some (startD, tok)) :
    weekday startD = 0 ∧
    startD ≤ toOrdinal y m d ∧ toOrdinal y m d ≤ startD + 6 ∧
    tok = toString y ++ "-W" ++ pad2 (isocalendarYW y (toOrdinal y m d)).2 ∧
    ((isocalendarYW y (toOrdinal y m d)).1 = y → tok = specIsoWeekToken y m d) := by
  have ho : 1 ≤ toOrdinal y m d := one_le_toOrdinal y m d hd
  unfold weekSelection at hsel
  have hpair : (toOrdinal y m d - weekday (toOrdinal y m d),
      strftimeYWV y (toOrdinal y m d)) = (startD, tok) := Option.some.inj hsel
  have hstart : toOrdinal y m d - weekday (toOrdinal y m d) = startD :=
    congrArg Prod.fst hpair
  have htok : strftimeYWV y (toOrdinal y m d) = tok := congrArg Prod.snd hpair
  refine ⟨?_, ?_, ?_, ?_, ?_⟩
  · rw [← hstart]; unfold weekday; omega
  · rw [← hstart]; omega
  · rw [← hstart]; unfold weekday; omega
  · rw [← htok]; rfl
  · intro hy
    rw [← htok]
    show toString y ++ "-W" ++ pad2 (isocalendarYW y (toOrdinal y m d)).2
      = toString (isocalendarYW y (toOrdinal y m d)).1 ++ "-W"
        ++ pad2 (isocalendarYW y (toOrdinal y m d)).2
    rw [hy]

theorem default_week_window_and_token_witness :
    weekSelection none (2024, 1, 17) = some (toOrdinal 2024 1 15, "2024-W03") ∧
    weekday (toOrdinal 2024 1 15) = 0 ∧
    ("2024-W03" : String) = specIsoWeekToken 2024 1 17 :=
  ⟨by decide,
   (default_week_window_and_token 2024 1 17 (by decide)
     (toOrdinal 2024 1 15) "2024-W03" (by decide)).1,
   (default_week_window_and_token 2024 1 17 (by decide)
     (toOrdinal 2024 1 15) "2024-W03" (by decide)).2.2.2.2 (by decide)⟩

/-- C8 (counterexample): on 2024-12-30 — a date whose ISO year 2025 differs
from its calendar year 2024 — the default dashboard selection echoes the
token "2024-W01" while the ISO token of that date is "2025-W01", so the
echoed token is not the ISO year-week token. -/
theorem default_week_token_mismatch :
    weekSelection none (2024, 12, 30) = some (toOrdinal 2024 12 30, "2024-W01") ∧
    specIsoWeekToken 2024 12 30 = "2025-W01" ∧
    ¬ (weekSelection none (2024, 12, 30)
        = some (toOrdinal 2024 12 30, specIsoWeekToken 2024 12 30)) := by
  exact ⟨by decide, by decide, by decide⟩

/-- C9: the aggregation reads only the session user's expense rows — two
databases agreeing on the expenses whose `user_id` is the session user's id
produce identical (category, total) rows and identical derived dashboard
data for every window. -/
theorem aggregation_user_isolation (db₁ db₂ : DB) (uid s e : Nat)
    (h : db₁.expenses.filter (fun x => x.user_id == uid)
       = db₂.expenses.filter (fun x => x.user_id == uid)) :
    aggregate db₁ uid s e = aggregate db₂ uid s e ∧
    dashboardData (aggregate db₁ uid s e)
      = dashboardData (aggregate db₂ uid s e) := by
  have hsplit : ∀ db : DB, matchingExpenses db uid s e
      = (db.expenses.filter (fun x => x.user_id == uid)).filter
          (fun x => decide (s ≤ x.date) && decide (x.date ≤ e)) := by
    intro db
    unfold matchingExpenses
    rw [List.filter_filter]
    congr 1
    funext x
    rw [Bool.and_comm]
  have key : matchingExpenses db₁ uid s e = matchingExpenses db₂ uid s e := by
    rw [hsplit, hsplit, h]
  unfold aggregate
  rw [key]
  exact ⟨rfl, rfl⟩

theorem aggregation_user_isolation_witness :
    aggregate demoDB2 1 (toOrdinal 2024 1 15) (toOrdinal 2024 1 15 + 6)
      = aggregate demoDB 1 (toOrdinal 2024 1 15) (toOrdinal 2024 1 15 + 6) :=
  (aggregation_user_isolation demoDB2 demoDB 1 (toOrdinal 2024 1 15)
    (toOrdinal 2024 1 15 + 6)
    (by
      rw [show demoDB2.expenses = [⟨1, 1, 85 / 2, "Food", toOrdinal 2024 1 17⟩,
            ⟨2, 2, 7, "Rent", toOrdinal 2024 1 16⟩] from rfl,
          show demoDB.expenses = [⟨1, 1, 85 / 2, "Food", toOrdinal 2024 1 17⟩] from rfl]
      rw [List.filter_cons_of_pos (by decide), List.filter_cons_of_neg (by decide),
        List.filter_cons_of_pos (by decide), List.filter_nil])).1

end ExpenseTracker
